/-
Verification development for the Report-Housing dynamic-analysis engine.

The Python backend (backend/analysis/*, backend/orchestrator.py) is shallowly
embedded below: pandas cells become an inductive `Cell` (strings, exact
rationals for numerics, `na` for missing values / NaN), tables become lists of
labelled rows, fallible pandas operations become `Except`-valued functions,
and Python floats are modelled by exact rationals `ℚ` (irrational outputs of
`sqrt` are carried symbolically by their sign and square).
-/
import Mathlib

set_option maxHeartbeats 1000000

namespace ReportHousing

/-- One cell of a pandas table: a string, a (rational-modelled) number, or a
missing value (NaN / None / NaT). -/
inductive Cell
  | str (s : String)
  | num (q : ℚ)
  | na
  deriving DecidableEq

/-- `series.dropna()` on a plain list of cells. -/
def dropNa (s : List Cell) : List Cell :=
  s.filter (fun c => c ≠ Cell.na)

/-- Stable insertion step: walk past the existing entries that the order
keeps in front, used by the sorts of the embedding.  (A structural sort is
used everywhere pandas/numpy sorts so that concrete runs reduce in the
kernel.) -/
def insertSorted {α : Type} (le : α → α → Bool) (a : α) : List α → List α
  | [] => [a]
  | b :: bs => if le b a then b :: insertSorted le a bs else a :: b :: bs

/-- Stable insertion sort under a boolean order. -/
def insertionSort {α : Type} (le : α → α → Bool) : List α → List α
  | [] => []
  | a :: as_ => insertSorted le a (insertionSort le as_)

theorem length_insertSorted {α : Type} (le : α → α → Bool) (a : α) (l : List α) :
    (insertSorted le a l).length = l.length + 1 := by
  induction l with
  | nil => rfl
  | cons b bs ih =>
    simp only [insertSorted]
    by_cases h : le b a
    · simp [h, ih]
    · simp [h]

theorem length_insertionSort {α : Type} (le : α → α → Bool) (l : List α) :
    (insertionSort le l).length = l.length := by
  induction l with
  | nil => rfl
  | cons a as_ ih => simp [insertionSort, length_insertSorted, ih]

theorem mem_insertSorted {α : Type} (le : α → α → Bool) (a x : α) (l : List α) :
    x ∈ insertSorted le a l ↔ x = a ∨ x ∈ l := by
  induction l with
  | nil => simp [insertSorted]
  | cons b bs ih =>
    simp only [insertSorted]
    by_cases h : le b a
    · rw [if_pos h]
      simp only [List.mem_cons, ih]
      tauto
    · rw [if_neg h]
      simp only [List.mem_cons]

theorem mem_insertionSort {α : Type} (le : α → α → Bool) (x : α) (l : List α) :
    x ∈ insertionSort le l ↔ x ∈ l := by
  induction l with
  | nil => simp [insertionSort]
  | cons a as_ ih => simp [insertionSort, mem_insertSorted, ih]

/-- `series.value_counts()`: distinct non-missing values with their counts,
sorted by count descending.  (pandas orders ties arbitrarily; the embedding
uses a stable sort, keeping first-occurrence order among ties.) -/
def value_counts (s : List Cell) : List (Cell × ℕ) :=
  let uniq := s.foldl (fun acc c => if acc.contains c then acc else acc ++ [c]) []
  let pairs := uniq.map (fun v => (v, s.count v))
  insertionSort (fun a b => decide (b.2 ≤ a.2)) pairs

/-- Fractional part used by `_compute_percentages` (`raw - floors`). -/
def fracOf (q : ℚ) : ℚ := q - Int.floor q

/-- One pass of `floors.loc[key] += 1`. -/
def bumpAt (l : List ℤ) (k : ℕ) : List ℤ := l.set k (l.getD k 0 + 1)

/-- The `while remainder > 0 and order:` loop of `_compute_percentages`,
recursing on the remaining point count `r`; `i` is the running cursor into
`order` (taken modulo its length, exactly as in the source). -/
def distributeLoop (order : List ℕ) : List ℤ → ℕ → ℕ → List ℤ
  | floors, 0, _ => floors
  | floors, r + 1, i =>
    if order.isEmpty then floors
    else distributeLoop order (bumpAt floors (order.getD (i % order.length) 0)) r (i + 1)

/-- `_compute_percentages` (operations.py): floor the exact percentages, then
hand the shortfall to 100 out one point at a time, walking the values in
descending order of fractional remainder.  Python's float division is
modelled by exact rational division. -/
def compute_percentages (counts : List ℕ) : List ℤ :=
  let total : ℕ := counts.sum
  if total = 0 then counts.map (fun _ => 0)
  else
    let raw : List ℚ := counts.map (fun c : ℕ => (c : ℚ) * 100 / (total : ℚ))
    let floors : List ℤ := raw.map Int.floor
    let remainder : ℤ := 100 - floors.sum
    let order : List ℕ :=
      insertionSort (fun a b => decide (fracOf (raw.getD b 0) ≤ fracOf (raw.getD a 0)))
        (List.range counts.length)
    distributeLoop order floors remainder.toNat 0

theorem sum_bumpAt (l : List ℤ) (k : ℕ) (hk : k < l.length) :
    (bumpAt l k).sum = l.sum + 1 := by
  induction l generalizing k with
  | nil => simp at hk
  | cons x xs ih =>
    cases k with
    | zero => simp [bumpAt, List.set]; ring
    | succ k =>
      simp only [bumpAt, List.set, List.getD_cons_succ, List.sum_cons]
      have := ih k (by simpa using hk)
      simp only [bumpAt] at this
      rw [this]; ring

theorem length_bumpAt (l : List ℤ) (k : ℕ) : (bumpAt l k).length = l.length := by
  simp [bumpAt]

theorem sum_distributeLoop (order : List ℕ) (hne : order ≠ [])
    (hlt : ∀ k ∈ order, k < n) :
    ∀ (floors : List ℤ) (r i : ℕ), floors.length = n →
      (distributeLoop order floors r i).sum = floors.sum + r := by
  intro floors r
  induction r generalizing floors with
  | zero => intro i _; simp [distributeLoop]
  | succ r ih =>
    intro i hlen
    have hno : ¬ order.isEmpty := by simpa [List.isEmpty_iff] using hne
    have hlt' : i % order.length < order.length :=
      Nat.mod_lt _ (List.length_pos.mpr hne)
    have hmem : order.getD (i % order.length) 0 ∈ order := by
      rw [List.getD_eq_getElem _ _ hlt']
      exact List.getElem_mem hlt'
    have hk : order.getD (i % order.length) 0 < floors.length := by
      rw [hlen]; exact hlt _ hmem
    have hstep : distributeLoop order floors (r + 1) i
        = distributeLoop order (bumpAt floors (order.getD (i % order.length) 0)) r (i + 1) := by
      simp [distributeLoop, hno]
    rw [hstep, ih _ (i + 1) (by rw [length_bumpAt]; exact hlen), sum_bumpAt _ _ hk]
    push_cast
    ring

theorem floors_sum_le (raw : List ℚ) :
    ((raw.map (fun q => Int.floor q)).sum : ℚ) ≤ raw.sum := by
  induction raw with
  | nil => simp
  | cons x xs ih =>
    simp only [List.map_cons, List.sum_cons, Int.cast_add]
    exact add_le_add (Int.floor_le x) ih

theorem sum_map_pct (counts : List ℕ) (t : ℚ) :
    (counts.map (fun c : ℕ => (c : ℚ) * 100 / t)).sum = (counts.sum : ℚ) * 100 / t := by
  induction counts with
  | nil => simp
  | cons x xs ih =>
    simp only [List.map_cons, List.sum_cons, ih, List.sum_cons, Nat.cast_add]
    ring

theorem raw_sum_eq (counts : List ℕ) (h : counts.sum ≠ 0) :
    (counts.map (fun c : ℕ => (c : ℚ) * 100 / (counts.sum : ℚ))).sum = 100 := by
  have h2 : (counts.sum : ℚ) ≠ 0 := by exact_mod_cast h
  rw [sum_map_pct, mul_comm, mul_div_assoc, div_self h2, mul_one]

theorem compute_percentages_sum (counts : List ℕ) (h : 0 < counts.sum) :
    (compute_percentages counts).sum = 100 := by
  unfold compute_percentages
  have htot : counts.sum ≠ 0 := by omega
  simp only [htot, if_false]
  set raw : List ℚ := counts.map (fun c : ℕ => (c : ℚ) * 100 / (counts.sum : ℚ)) with hraw
  set floors : List ℤ := raw.map Int.floor with hfl
  set order : List ℕ :=
    insertionSort (fun a b => decide (fracOf (raw.getD b 0) ≤ fracOf (raw.getD a 0)))
      (List.range counts.length) with hord
  have hcne : counts ≠ [] := by
    intro hc; rw [hc] at h; simp at h
  have hone : order ≠ [] := by
    intro he
    have : order.length = 0 := by rw [he]; rfl
    rw [hord, length_insertionSort, List.length_range] at this
    exact hcne (List.length_eq_zero.mp this)
  have horder_lt : ∀ k ∈ order, k < counts.length := by
    intro k hk
    have : k ∈ List.range counts.length := by
      rw [hord] at hk
      exact (mem_insertionSort _ _ _).mp hk
    simpa using this
  have hflen : floors.length = counts.length := by
    simp [hfl, hraw]
  have hsle : (floors.sum : ℚ) ≤ 100 := by
    have := floors_sum_le raw
    rw [← hfl] at this
    calc (floors.sum : ℚ) ≤ raw.sum := this
      _ = 100 := raw_sum_eq counts htot
  have hsle' : floors.sum ≤ 100 := by exact_mod_cast hsle
  have hrem : (100 - floors.sum).toNat = (100 - floors.sum : ℤ) := by
    omega
  rw [sum_distributeLoop order hone horder_lt floors _ 0 hflen]
  omega

/-- C1: For every non-empty series of non-missing values, the distribution
operation's integer percentages (floor-then-distribute largest-remainder
rounding over the value counts, `_compute_percentages` applied to the
`value_counts` of the series) sum to exactly 100. -/
theorem c1_distribution_percentages_sum_100 (s : List Cell)
    (h : dropNa s ≠ []) :
    (compute_percentages ((value_counts (dropNa s)).map Prod.snd)).sum = 100 := by
  apply compute_percentages_sum
  -- the total of the value counts is the length of the non-missing series
  obtain ⟨c, hc⟩ := List.exists_mem_of_ne_nil _ h
  have huniq : c ∈ (dropNa s).foldl
      (fun acc x => if acc.contains x then acc else acc ++ [x]) [] := by
    have : ∀ (l : List Cell) (acc : List Cell), c ∈ acc ∨ c ∈ l →
        c ∈ l.foldl (fun acc x => if acc.contains x then acc else acc ++ [x]) acc := by
      intro l
      induction l with
      | nil =>
        intro acc hin
        rcases hin with hin | hin
        · simpa using hin
        · simp at hin
      | cons x xs ih =>
        intro acc hin
        simp only [List.foldl_cons]
        by_cases hcon : acc.contains x
        · simp only [hcon, if_true]
          apply ih
          rcases hin with hin | hin
          · exact Or.inl hin
          · rcases List.mem_cons.mp hin with rfl | hin
            · exact Or.inl (List.mem_of_elem_eq_true hcon)
            · exact Or.inr hin
        · simp only [hcon, if_false]
          apply ih
          rcases hin with hin | hin
          · exact Or.inl (List.mem_append_left _ hin)
          · rcases List.mem_cons.mp hin with rfl | hin
            · exact Or.inl (by simp)
            · exact Or.inr hin
    exact this (dropNa s) [] (Or.inr hc)
  have hpair : (c, (dropNa s).count c) ∈ value_counts (dropNa s) := by
    unfold value_counts
    exact (mem_insertionSort _ _ _).mpr (List.mem_map_of_mem _ huniq)
  have hcount : 0 < (dropNa s).count c := List.count_pos_iff.mpr hc
  calc 0 < (dropNa s).count c := hcount
    _ ≤ ((value_counts (dropNa s)).map Prod.snd).sum := by
      exact List.single_le_sum (by intro x _; exact Nat.zero_le x) _
        (List.mem_map_of_mem Prod.snd hpair)

/-- Witness for C1 at the spec's scenario
`["a","b","a","a","c","b","a","d","d","d"]`. -/
theorem c1_witness :
    dropNa (["a", "b", "a", "a", "c", "b", "a", "d", "d", "d"].map Cell.str) ≠ [] ∧
    (compute_percentages
      ((value_counts (dropNa (["a", "b", "a", "a", "c", "b", "a", "d", "d", "d"].map
        Cell.str))).map Prod.snd)).sum = 100 :=
  ⟨by decide, c1_distribution_percentages_sum_100 _ (by decide)⟩

/-- Python exception classes raised (or named) around the grouping engine.
`configurationError` models the `ConfigurationError` class named by the spec;
no such class exists anywhere in the source, it is included only so the
spec's wording can be stated and compared against the code's behaviour. -/
inductive PyError
  | typeError (msg : String)
  | keyError (msg : String)
  | valueError (msg : String)
  | configurationError (msg : String)
  deriving DecidableEq

/-- Is this error the spec-named `ConfigurationError`? -/
def PyError.isConfigError : PyError → Bool
  | .configurationError _ => true
  | _ => false

/-- A pandas DataFrame: a list of column names (duplicates allowed, exactly as
pandas allows) and rows labelled with their original integer index. -/
structure DF where
  header : List String
  rows : List (ℕ × List Cell)
  deriving DecidableEq

/-- `df.empty`: true when the table has no rows or no columns. -/
def DF.isEmptyTable (df : DF) : Bool := df.rows.isEmpty || df.header.isEmpty

/-- The positions at which a column name occurs in the header.  pandas
`df[name]` returns a Series when the name occurs once and a sub-DataFrame
when it occurs several times. -/
def colPositions (df : DF) (name : String) : List ℕ :=
  (List.range df.header.length).filter (fun i => df.header.getD i "" = name)

/-- The indexed series stored at header position `i`. -/
def colAt (df : DF) (i : ℕ) : List (ℕ × Cell) :=
  df.rows.map (fun r => (r.1, r.2.getD i Cell.na))

/-- Python `str()` of a cell, as used by `astype(str)`: NaN renders as the
string `nan`.  Non-integral numbers are rendered as `num/den` (the embedding
does not reproduce float decimal formatting; no claim depends on it). -/
def cellStr (c : Cell) : String :=
  match c with
  | Cell.str s => s
  | Cell.num q => if q.den = 1 then toString q.num else toString q.num ++ "/" ++ toString q.den
  | Cell.na => "nan"

/-- pandas elementwise `==` against a scalar: NaN equals nothing, values of
different kinds compare unequal rather than raising. -/
def cellEq (a b : Cell) : Bool :=
  match a, b with
  | Cell.na, _ => false
  | _, Cell.na => false
  | Cell.str s, Cell.str t => s == t
  | Cell.num p, Cell.num q => p == q
  | _, _ => false

/-- pandas elementwise `>`: comparisons with NaN are false; comparing a string
with a number raises `TypeError`. -/
def cellGt (a b : Cell) : Except PyError Bool :=
  match a, b with
  | Cell.na, _ => .ok false
  | _, Cell.na => .ok false
  | Cell.num p, Cell.num q => .ok (decide (q < p))
  | Cell.str s, Cell.str t => .ok (decide (t < s))
  | _, _ => .error (.typeError "unorderable types")

/-- `Series.isin`: membership by value; NaN is matched only by a NaN in the
probe list. -/
def cellIsin (a : Cell) (l : List Cell) : Bool :=
  match a with
  | Cell.na => l.contains Cell.na
  | _ => l.any (fun b => cellEq a b)

/-- Substring test used by `.str.contains(value, na=False)`. -/
def strContainsSub (s pat : String) : Bool :=
  (List.range (s.length + 1)).any (fun i => pat.isPrefixOf (s.drop i))

/-- A filter's `value`: a scalar or a list (`in` / `not_in`). -/
inductive FVal
  | scalar (c : Cell)
  | listVal (cs : List Cell)
  deriving DecidableEq

/-- `schemas.Filter`. -/
structure Filter where
  column : String
  operator : String
  value : FVal
  deriving DecidableEq

/-- The boolean row mask computed by one branch of the `if/elif` operator
chain in `prepare_data_groups`.  Shape mismatches between operator and value
raise, as the corresponding pandas calls do; an operator string outside the
chain (impossible under the schema's `Literal`) leaves every row in place. -/
def filterMask (col : List (ℕ × Cell)) (f : Filter) : Except PyError (List Bool) :=
  match f.operator, f.value with
  | "eq", FVal.scalar v => .ok (col.map (fun rc => cellEq rc.2 v))
  | "eq", FVal.listVal _ => .error (.valueError "lengths must match")
  | "neq", FVal.scalar v => .ok (col.map (fun rc => !(cellEq rc.2 v)))
  | "neq", FVal.listVal _ => .error (.valueError "lengths must match")
  | "gt", FVal.scalar v => col.mapM (fun rc => cellGt rc.2 v)
  | "gt", FVal.listVal _ => .error (.valueError "lengths must match")
  | "lt", FVal.scalar v => col.mapM (fun rc => cellGt v rc.2)
  | "lt", FVal.listVal _ => .error (.valueError "lengths must match")
  | "in", FVal.listVal l => .ok (col.map (fun rc => cellIsin rc.2 l))
  | "in", FVal.scalar _ => .error (.typeError "only list-like objects are allowed")
  | "not_in", FVal.listVal l => .ok (col.map (fun rc => !(cellIsin rc.2 l)))
  | "not_in", FVal.scalar _ => .error (.typeError "only list-like objects are allowed")
  | "contains", FVal.scalar (Cell.str p) =>
      .ok (col.map (fun rc => strContainsSub (cellStr rc.2) p))
  | "contains", _ => .error (.typeError "expected a string pattern")
  | _, _ => .ok (col.map (fun _ => true))

/-- Boolean-mask row selection `df[mask]`: a fresh frame holding the rows whose
mask entry is true, original index labels preserved. -/
def maskRows (df : DF) (mask : List Bool) : DF :=
  ⟨df.header, (df.rows.zip mask).filterMap (fun rm => if rm.2 then some rm.1 else none)⟩

/-- The exact message of the defensive guard in `prepare_data_groups`. -/
def dupColMsg (name : String) : String :=
  "Filter column " ++ name ++ " resolved to a DataFrame; expected a Series. " ++
    "Check your filter configuration."

/-- The filter loop of `prepare_data_groups` (helpers.py): look the column up
on the running frame (KeyError when absent), raise `TypeError` when the name
resolves to a sub-DataFrame (duplicate column names) before the operator is
evaluated on any row, else AND the mask on cumulatively. -/
def prepareFilters : DF → List Filter → Except PyError DF
  | df, [] => .ok df
  | df, f :: fs =>
    match colPositions df f.column with
    | [] => .error (.keyError f.column)
    | [i] =>
        (filterMask (colAt df i) f).bind (fun mask => prepareFilters (maskRows df mask) fs)
    | _ => .error (.typeError (dupColMsg f.column))

/-- A pandas groupby key: the bare value for a single grouping column, the
tuple of values for several, or the synthetic `"Full Dataset"` label used when
no grouping is requested. -/
inductive GroupKey
  | fullDataset
  | scalarKey (c : Cell)
  | tupleKey (cs : List Cell)
  deriving DecidableEq

/-- `format_group_name` (helpers.py): comma-join tuples, `str()` scalars. -/
def format_group_name : GroupKey → String
  | .fullDataset => "Full Dataset"
  | .scalarKey c => cellStr c
  | .tupleKey cs => String.intercalate ", " (cs.map cellStr)

/-- Sort order pandas uses on group keys (`sort=True`): numbers and strings
by their own orders, NaN keys last.  (Heterogeneous keys order numbers before
strings; no claim depends on that choice.) -/
def cellLeB (a b : Cell) : Bool :=
  match a, b with
  | Cell.na, Cell.na => true
  | _, Cell.na => true
  | Cell.na, _ => false
  | Cell.num p, Cell.num q => decide (p ≤ q)
  | Cell.str s, Cell.str t => decide (s ≤ t)
  | Cell.num _, Cell.str _ => true
  | Cell.str _, Cell.num _ => false

/-- Lexicographic order on key tuples. -/
def keyListLe : List Cell → List Cell → Bool
  | [], _ => true
  | _ :: _, [] => false
  | a :: as_, b :: bs => if a = b then keyListLe as_ bs else cellLeB a b

/-- Scalar key for one grouping column, tuple key for several. -/
def mkGroupKey (k : List Cell) : GroupKey :=
  match k with
  | [c] => .scalarKey c
  | cs => .tupleKey cs

/-- `df.groupby(group_by, dropna=False)`: partition rows by the value tuple of
the grouping columns (NaN keys kept), groups sorted by key. -/
def groupbyDf (df : DF) (by_ : List String) : Except PyError (List (GroupKey × DF)) :=
  (by_.mapM (fun name =>
    match colPositions df name with
    | [i] => Except.ok i
    | [] => Except.error (PyError.keyError name)
    | _ => Except.error (PyError.valueError name))).bind (fun idxs =>
  let keyOf : (ℕ × List Cell) → List Cell := fun r => idxs.map (fun i => r.2.getD i Cell.na)
  let keys := df.rows.foldl
    (fun (acc : List (List Cell)) r =>
      if acc.contains (keyOf r) then acc else acc ++ [keyOf r]) []
  let sorted := insertionSort keyListLe keys
  Except.ok (sorted.map (fun k =>
    (mkGroupKey k, ⟨df.header, df.rows.filter (fun r => keyOf r = k)⟩))))

/-- `df.copy()`: the receiving frame is left as it was; a fresh frame with the
same contents is handed back.  (First component: the receiver's state after
the call; second: the returned object.) -/
def pdCopy (df : DF) : DF × DF := (df, df)

/-- `prepare_data_groups` (helpers.py).  The first component is the caller's
input frame as the call leaves it — the body copies the input once and every
later operation (masking, groupby) allocates fresh frames, so nothing writes
through to the caller's frame.  The second component is the returned group
list: the filtered frame under the `"Full Dataset"` label when `group_by` is
empty, else the groupby partition. -/
def prepare_data_groups (df : DF) (filters : List Filter) (group_by : List String) :
    DF × Except PyError (List (GroupKey × DF)) :=
  let copied := pdCopy df
  let res :=
    (prepareFilters copied.2 filters).bind (fun filtered =>
      if group_by.isEmpty then Except.ok [(GroupKey.fullDataset, filtered)]
      else groupbyDf filtered group_by)
  (copied.1, res)

/-- C9: the grouping engine never mutates the caller's input table: after
`prepare_data_groups(table, filters, group_by)` returns, the input table
(rows, columns and cell values) is exactly what it was before the call.  The
embedding threads the receiver state of every pandas primitive the body
invokes (`copy`, boolean masking, `groupby` — each leaves its receiver
untouched and allocates fresh frames), and the first component of
`prepare_data_groups` is the input frame as the call leaves it. -/
theorem c9_prepare_never_mutates_input (df : DF) (filters : List Filter)
    (group_by : List String) :
    (prepare_data_groups df filters group_by).1 = df := rfl

/-- C6 (amended): when a filter's `column` resolves to more than one series
(duplicate column names), `prepare_data_groups` fails with a `TypeError`
(not the spec's `ConfigurationError`, which exists nowhere in the source),
and it does so before the filter is evaluated against any row: the failure
holds for every possible row content of the table. -/
theorem c6_ambiguous_filter_raises_type_error (hdr : List String)
    (rows : List (ℕ × List Cell)) (f : Filter) (fs : List Filter) (gb : List String)
    (hdup : 2 ≤ (colPositions ⟨hdr, rows⟩ f.column).length) :
    (prepare_data_groups ⟨hdr, rows⟩ (f :: fs) gb).2
      = Except.error (PyError.typeError (dupColMsg f.column)) := by
  cases hcp : colPositions ⟨hdr, rows⟩ f.column with
  | nil => rw [hcp] at hdup; simp at hdup
  | cons a tail =>
    cases tail with
    | nil => rw [hcp] at hdup; simp at hdup
    | cons b rest =>
      simp [prepare_data_groups, pdCopy, prepareFilters, hcp, Except.bind]

/-- Witness for the amended C6 at a concrete two-column table. -/
theorem c6_witness :
    2 ≤ (colPositions ⟨["a", "a"], [(0, [Cell.num 1, Cell.num 2])]⟩ "a").length ∧
    (prepare_data_groups ⟨["a", "a"], [(0, [Cell.num 1, Cell.num 2])]⟩
        [⟨"a", "eq", FVal.scalar (Cell.num 1)⟩] []).2
      = Except.error (PyError.typeError (dupColMsg "a")) :=
  ⟨by decide, c6_ambiguous_filter_raises_type_error _ _ _ _ _ (by decide)⟩

/-- C6 counterexample: at the concrete duplicated-column table the engine
fails with a `TypeError`, which is not a `ConfigurationError`, refuting the
claim's stated error class. -/
theorem c6_counterexample :
    (prepare_data_groups ⟨["a", "a"], [(0, [Cell.num 1, Cell.num 2])]⟩
        [⟨"a", "eq", FVal.scalar (Cell.num 1)⟩] []).2
      = Except.error (PyError.typeError (dupColMsg "a")) ∧
    PyError.isConfigError (PyError.typeError (dupColMsg "a")) = false :=
  ⟨rfl, rfl⟩

/-- Digits of a decimal literal to a natural number (`none` on a non-digit). -/
def digitsToNat (ds : List Char) : Option ℕ :=
  ds.foldlM (fun acc c => if c.isDigit then some (acc * 10 + (c.toNat - 48)) else none) 0

/-- Parse of a numeric string as Python's `float()` accepts plain decimal
forms: optional sign, integer digits, optional fractional digits.  (Exponent
forms and surrounding whitespace are not modelled; no claim depends on
them.) -/
def parseDecimalQ (s : String) : Option ℚ :=
  let cs := s.toList
  let signAndRest : ℚ × List Char :=
    match cs with
    | '-' :: r => (-1, r)
    | '+' :: r => (1, r)
    | r => (1, r)
  match (signAndRest.2.splitOn '.') with
  | [w] =>
    if w.isEmpty then none
    else (digitsToNat w).map (fun n => signAndRest.1 * n)
  | [w, f] =>
    if w.isEmpty && f.isEmpty then none
    else
      (digitsToNat w).bind (fun wn =>
        (digitsToNat f).map (fun fn =>
          signAndRest.1 * ((wn : ℚ) + (fn : ℚ) / ((10 : ℚ) ^ f.length))))
  | _ => none

/-- `pd.to_numeric(·, errors="coerce")` on one cell: numbers pass through,
numeric-looking strings parse, everything else coerces to missing. -/
def toNumericCell (c : Cell) : Cell :=
  match c with
  | Cell.num q => Cell.num q
  | Cell.na => Cell.na
  | Cell.str s =>
    match parseDecimalQ s with
    | some q => Cell.num q
    | none => Cell.na

/-- `schemas.Transformation`: the action name plus the two `params` keys the
pipeline ever reads (`delimiter`, `value`). -/
structure Transformation where
  action : String
  delimiter : Option String := none
  fillValue : Option Cell := none
  deriving DecidableEq

/-- Python truthiness of the `params.get("delimiter")` lookup: missing or
empty string both fail the `if not delimiter` guard. -/
def delimiterOk : Option String → Bool
  | none => false
  | some d => !d.isEmpty

/-- One transformation action applied to an indexed series, mirroring the
`if/elif` chain of `apply_transformations` (helpers.py).  `split_and_explode`
fans one cell out to several rows that share the original index label. -/
def applyAction (s : List (ℕ × Cell)) (t : Transformation) :
    Except PyError (List (ℕ × Cell)) :=
  if t.action = "split_and_explode" then
    match t.delimiter with
    | some d =>
      if d.isEmpty then .error (.valueError "split_and_explode requires a delimiter in params.")
      else .ok (s.flatMap (fun rc => ((cellStr rc.2).splitOn d).map (fun tok => (rc.1, Cell.str tok))))
    | none => .error (.valueError "split_and_explode requires a delimiter in params.")
  else if t.action = "to_root_node" then
    match t.delimiter with
    | some d =>
      if d.isEmpty then .error (.valueError "to_root_node requires a delimiter in params.")
      else .ok (s.map (fun rc => (rc.1, Cell.str (((cellStr rc.2).splitOn d).headD ""))))
    | none => .error (.valueError "to_root_node requires a delimiter in params.")
  else if t.action = "strip_whitespace" then
    .ok (s.map (fun rc => (rc.1, Cell.str (cellStr rc.2).trim)))
  else if t.action = "to_numeric" then
    .ok (s.map (fun rc => (rc.1, toNumericCell rc.2)))
  else if t.action = "fill_na" then
    .ok (s.map (fun rc =>
      (rc.1, match rc.2 with
             | Cell.na => t.fillValue.getD (Cell.num 0)
             | c => c)))
  else .ok s

/-- The boolean mask of one post-transformation filter on a series, mirroring
the post-filter chain of `apply_transformations`: `gt`/`lt` coerce the series
numeric first (so non-numeric entries compare false). -/
def postMask (s : List (ℕ × Cell)) (f : Filter) : Except PyError (List Bool) :=
  match f.operator, f.value with
  | "eq", FVal.scalar v => .ok (s.map (fun rc => cellEq rc.2 v))
  | "eq", FVal.listVal _ => .error (.valueError "lengths must match")
  | "neq", FVal.scalar v => .ok (s.map (fun rc => !(cellEq rc.2 v)))
  | "neq", FVal.listVal _ => .error (.valueError "lengths must match")
  | "gt", FVal.scalar (Cell.num q) =>
    .ok (s.map (fun rc =>
      match toNumericCell rc.2 with
      | Cell.num p => decide (q < p)
      | _ => false))
  | "gt", FVal.scalar _ => .error (.typeError "unorderable types")
  | "gt", FVal.listVal _ => .error (.valueError "lengths must match")
  | "lt", FVal.scalar (Cell.num q) =>
    .ok (s.map (fun rc =>
      match toNumericCell rc.2 with
      | Cell.num p => decide (p < q)
      | _ => false))
  | "lt", FVal.scalar _ => .error (.typeError "unorderable types")
  | "lt", FVal.listVal _ => .error (.valueError "lengths must match")
  | "in", FVal.listVal l => .ok (s.map (fun rc => cellIsin rc.2 l))
  | "in", FVal.scalar _ => .error (.typeError "only list-like objects are allowed")
  | "not_in", FVal.listVal l => .ok (s.map (fun rc => !(cellIsin rc.2 l)))
  | "not_in", FVal.scalar _ => .error (.typeError "only list-like objects are allowed")
  | "contains", FVal.scalar (Cell.str p) =>
      .ok (s.map (fun rc => strContainsSub (cellStr rc.2) p))
  | "contains", _ => .error (.typeError "expected a string pattern")
  | _, _ => .ok (s.map (fun _ => true))

/-- Keep the series entries whose mask bit is set (`s[mask]`). -/
def maskSeries (s : List (ℕ × Cell)) (mask : List Bool) : List (ℕ × Cell) :=
  (s.zip mask).filterMap (fun rm => if rm.2 then some rm.1 else none)

/-- `apply_transformations` (helpers.py): the transformations in list order,
then the post-transformation filters in list order. -/
def apply_transformations (s : List (ℕ × Cell)) (ts : List Transformation)
    (post : List Filter) : Except PyError (List (ℕ × Cell)) :=
  (ts.foldlM applyAction s).bind (fun s1 =>
    post.foldlM (fun acc f => (postMask acc f).map (maskSeries acc)) s1)

/-- A result table: named columns and positionally aligned rows (the payload
of a `ReportBlock`). -/
structure RFrame where
  cols : List String
  rows : List (List Cell)
  deriving DecidableEq

/-- `schemas.ReportBlock`. -/
structure ReportBlock where
  title : String
  data : RFrame
  deriving DecidableEq

/-- `frame[name] = scalar`: replace the column when the name exists, else
append it; the scalar is broadcast to every row. -/
def RFrame.setCol (fr : RFrame) (name : String) (c : Cell) : RFrame :=
  match fr.cols.findIdx? (· = name) with
  | some i => ⟨fr.cols, fr.rows.map (fun r => r.set i c)⟩
  | none => ⟨fr.cols ++ [name], fr.rows.map (fun r => r ++ [c])⟩

/-- Cell of a row under a named column, with a default for absent columns
(`row.get(name, default)`). -/
def rowVal (cols : List String) (r : List Cell) (name : String) (dflt : Cell) : Cell :=
  match cols.findIdx? (· = name) with
  | some i => r.getD i Cell.na
  | none => dflt

/-- `pd.concat(frames, ignore_index=True)`: column union in order of first
appearance, missing cells filled with NaN. -/
def concatFrames (frames : List RFrame) : RFrame :=
  let cols := frames.foldl
    (fun (acc : List String) fr => acc ++ fr.cols.filter (fun c => !acc.contains c)) []
  ⟨cols, frames.flatMap (fun fr => fr.rows.map (fun r => cols.map (fun c => rowVal fr.cols r c Cell.na)))⟩

/-- `frame.rename(columns={old: new})`. -/
def RFrame.renameCol (fr : RFrame) (old new_ : String) : RFrame :=
  ⟨fr.cols.map (fun c => if c = old then new_ else c), fr.rows⟩

/-- Column projection `frame[cols]` (missing names yield NaN columns). -/
def RFrame.selectCols (fr : RFrame) (cs : List String) : RFrame :=
  ⟨cs, fr.rows.map (fun r => cs.map (fun c => rowVal fr.cols r c Cell.na))⟩

def isNumCell : Cell → Bool
  | Cell.num _ => true
  | _ => false

def isStrCell : Cell → Bool
  | Cell.str _ => true
  | _ => false

/-- `pd.to_numeric(series, errors="coerce").dropna()` as a plain value list. -/
def qList (s : List (ℕ × Cell)) : List ℚ :=
  s.filterMap (fun rc =>
    match toNumericCell rc.2 with
    | Cell.num q => some q
    | _ => none)

/-- Round-half-to-even on an exact rational (Python's `round` on the exact
value; float ties may differ, which no claim depends on). -/
def roundHalfEven (x : ℚ) : ℤ :=
  let f := Int.floor x
  let r := x - f
  if r < 1/2 then f
  else if 1/2 < r then f + 1
  else if f % 2 = 0 then f else f + 1

/-- Python `round(x, 2)`. -/
def round2 (x : ℚ) : ℚ := (roundHalfEven (x * 100) : ℚ) / 100

/-- pandas `Series.median()` on a rational list. -/
def medianQ (l : List ℚ) : ℚ :=
  let sorted := insertionSort (fun a b : ℚ => decide (a ≤ b)) l
  let n := sorted.length
  if n % 2 = 1 then sorted.getD (n / 2) 0
  else (sorted.getD (n / 2 - 1) 0 + sorted.getD (n / 2) 0) / 2

/-- `_op_average` (operations.py). -/
def op_average (s : List (ℕ × Cell)) : RFrame :=
  let ns := qList s
  if ns.isEmpty then ⟨["Average"], [[Cell.na]]⟩
  else ⟨["Average"], [[Cell.num (round2 (ns.sum / ns.length))]]⟩

/-- `_op_sum` (operations.py). -/
def op_sum (s : List (ℕ × Cell)) : RFrame :=
  let ns := qList s
  if ns.isEmpty then ⟨["Sum"], [[Cell.na]]⟩
  else ⟨["Sum"], [[Cell.num (round2 ns.sum)]]⟩

/-- `_op_median` (operations.py).  The datetime fallback is modelled as
always yielding no datable values: the `Cell` model carries no date-typed
values and non-numeric strings are treated as unparseable dates (no claim
exercises the date path). -/
def op_median (s : List (ℕ × Cell)) : RFrame :=
  let s1 := s.filter (fun rc => rc.2 ≠ Cell.na)
  if s1.isEmpty then ⟨["Median"], [[Cell.na]]⟩
  else
    let ns := qList s1
    if !ns.isEmpty then ⟨["Median"], [[Cell.num (round2 (medianQ ns))]]⟩
    else ⟨["Median"], [[Cell.na]]⟩

/-- `_op_distribution` (operations.py): value counts with largest-remainder
integer percentages, rendered as `"<n>%"` strings. -/
def op_distribution (s : List (ℕ × Cell)) : RFrame :=
  let vals := dropNa (s.map Prod.snd)
  if vals.isEmpty then ⟨["", "%", "Count"], []⟩
  else
    let counts := value_counts vals
    let pcts := compute_percentages (counts.map Prod.snd)
    ⟨["", "%", "Count"],
      (counts.zip pcts).map (fun cp =>
        [Cell.str (cellStr cp.1.1), Cell.str (toString cp.2 ++ "%"), Cell.num cp.1.2])⟩

/-- `_op_duplicate_count` (operations.py): string-normalise, count, report
only values occurring more than once. -/
def op_duplicate_count (s : List (ℕ × Cell)) : RFrame :=
  let strs := (dropNa (s.map Prod.snd)).map (fun c => Cell.str (cellStr c))
  if strs.isEmpty then ⟨["Duplicates", "Instances"], []⟩
  else
    let dupes := (value_counts strs).filter (fun vc => 1 < vc.2)
    ⟨["Duplicates", "Instances"], dupes.map (fun vc => [vc.1, Cell.num vc.2])⟩

/-- `_op_list_unique_values` (operations.py): distinct values sorted
numerically when homogeneous, falling back to string sort for mixed types
(`np.sort` raising `TypeError` is the fallback trigger). -/
def op_list_unique_values (s : List (ℕ × Cell)) : RFrame :=
  let vals := dropNa (s.map Prod.snd)
  if vals.isEmpty then ⟨["Unique Value"], []⟩
  else
    let uniq := vals.foldl
      (fun (acc : List Cell) c => if acc.contains c then acc else acc ++ [c]) []
    let sortedVals :=
      if uniq.all isNumCell || uniq.all isStrCell then insertionSort cellLeB uniq
      else insertionSort cellLeB (uniq.map (fun c => Cell.str (cellStr c)))
    ⟨["Unique Value"], sortedVals.map (fun c => [c])⟩

/-- The `op_handlers` dispatcher table keys of `operations.run`. -/
def opHandlerNames : List String :=
  ["average", "sum", "median", "distribution", "duplicate_count", "list_unique_values"]

def aggOps : List String := ["average", "sum", "median"]

/-- Dispatch through `op_handlers` (only evaluated for known operations). -/
def dispatchOp (op : String) (s : List (ℕ × Cell)) : RFrame :=
  if op = "average" then op_average s
  else if op = "sum" then op_sum s
  else if op = "median" then op_median s
  else if op = "distribution" then op_distribution s
  else if op = "duplicate_count" then op_duplicate_count s
  else op_list_unique_values s

/-- `schemas.CustomAnalysis`. -/
structure CustomStep where
  output_name : String
  filters : List Filter := []
  group_by : List String := []
  target_columns : List String
  transformations : List Transformation := []
  operation : String
  post_transformation_filters : List Filter := []
  deriving DecidableEq

/-- The raw values a pandas groupby key decodes to (`list(group_name)` for a
tuple, `[group_name]` otherwise). -/
def rawKeyValues : GroupKey → List Cell
  | GroupKey.fullDataset => [Cell.str "Full Dataset"]
  | GroupKey.scalarKey c => [c]
  | GroupKey.tupleKey cs => cs

/-- Pad with `None` or truncate so the values match the group-by fields. -/
def padTruncate (vals : List Cell) (n : ℕ) : List Cell :=
  vals.take n ++ List.replicate (n - vals.length) Cell.na

/-- One target column of one group in `operations.run`: a `"Column not
found"` row when the name is absent, a `TypeError` when it is duplicated
(`apply_transformations` rejects the sub-DataFrame), else the transformed
series fed to the operation handler, with Group/Column context (and the
group-by field values) attached in multi-context runs. -/
def processColumn (step : CustomStep) (multiContext includeGF : Bool)
    (gname : String) (gctx : List (String × Cell)) (gdf : DF) (col : String) :
    Except PyError RFrame :=
  match colPositions gdf col with
  | [] => .ok ⟨["Group", "Column", "Error"],
      [[Cell.str gname, Cell.str col, Cell.str "Column not found"]]⟩
  | [i] =>
    (apply_transformations (colAt gdf i) step.transformations
        step.post_transformation_filters).map (fun ts =>
      let rf := dispatchOp step.operation ts
      if multiContext then
        let rf1 := (rf.setCol "Group" (Cell.str gname)).setCol "Column" (Cell.str col)
        if includeGF then gctx.foldl (fun acc fv => acc.setCol fv.1 fv.2) rf1 else rf1
      else rf)
  | _ => .error (.typeError "apply_transformations expects a pandas Series")

/-- The group loop of `operations.run`: empty groups are skipped outright
(before any per-column work); each remaining group contributes one result
frame per target column. -/
def processGroups (step : CustomStep) (multiContext includeGF : Bool) :
    List (GroupKey × DF) → Except PyError (List RFrame)
  | [] => .ok []
  | g :: rest =>
    if g.2.isEmptyTable then processGroups step multiContext includeGF rest
    else
      (step.target_columns.mapM
        (processColumn step multiContext includeGF (format_group_name g.1)
          (step.group_by.zip (padTruncate (rawKeyValues g.1) step.group_by.length))
          g.2)).bind (fun frames =>
      (processGroups step multiContext includeGF rest).map (fun rests => frames ++ rests))

/-- The `"No data produced for this analysis"` frame of `operations.run`. -/
def messageFrame : RFrame :=
  ⟨["Message"], [[Cell.str "No data produced for this analysis"]]⟩

def metricLabel (op : String) : String :=
  if op = "average" then "Average of"
  else if op = "sum" then "Sum of"
  else if op = "median" then "Median of"
  else "Value for"

/-- `final_df.groupby(["Group", "Column"], sort=False)`: key pairs in
first-occurrence order, each with every row carrying that pair (NaN keys are
dropped, as pandas groupby does by default). -/
def groupColPairs (fr : RFrame) : List ((Cell × Cell) × List (List Cell)) :=
  let keyOf := fun (r : List Cell) =>
    (rowVal fr.cols r "Group" Cell.na, rowVal fr.cols r "Column" Cell.na)
  let valid := fr.rows.filter (fun r => (keyOf r).1 ≠ Cell.na ∧ (keyOf r).2 ≠ Cell.na)
  let keys := valid.foldl
    (fun (acc : List (Cell × Cell)) r =>
      if acc.contains (keyOf r) then acc else acc ++ [keyOf r]) []
  keys.map (fun k => (k, valid.filter (fun r => keyOf r = k)))

/-- The layout-normalisation tail of `operations.run` applied to the
concatenation of the per-group result frames. -/
def assembleCustom (step : CustomStep) (multiContext includeGF : Bool)
    (frames : List RFrame) : RFrame :=
  let final0 := concatFrames frames
  let hasGC := final0.cols.contains "Group" && final0.cols.contains "Column"
  if includeGF && !step.group_by.isEmpty && step.target_columns.length = 1 &&
      aggOps.contains step.operation && hasGC then
    let exclude := ["Group", "Column"] ++ step.group_by
    let metricCols := final0.cols.filter (fun c => !exclude.contains c)
    match metricCols with
    | [] => final0.selectCols (step.group_by ++ metricCols)
    | m0 :: ms =>
      let newName := metricLabel step.operation ++ " " ++ (step.target_columns.headD "")
      (final0.renameCol m0 newName).selectCols (step.group_by ++ (newName :: ms))
  else if multiContext && step.operation = "distribution" && hasGC then
    let core := ["", "%", "Count"]
    let pretty := (groupColPairs final0).flatMap (fun kp =>
      [[kp.1.1, kp.1.2, Cell.str "", Cell.str "", Cell.str ""]] ++
      kp.2.map (fun r =>
        [Cell.str "", Cell.str "",
         rowVal final0.cols r "" (Cell.str ""),
         rowVal final0.cols r "%" (Cell.str ""),
         rowVal final0.cols r "Count" (Cell.str "")]))
    ⟨["Group", "Column"] ++ core, pretty⟩
  else if multiContext && step.operation = "duplicate_count" && hasGC then
    let pretty := (groupColPairs final0).flatMap (fun kp =>
      [[kp.1.1, kp.1.2, Cell.str "", Cell.str ""]] ++
      kp.2.map (fun r =>
        [Cell.str "", Cell.str "",
         rowVal final0.cols r "Duplicates" (Cell.str ""),
         rowVal final0.cols r "Instances" (Cell.str "")]))
    ⟨["Group", "Column", "Duplicates", "Instances"], pretty⟩
  else
    if multiContext && hasGC then
      let contextCols := ["Group", "Column"] ++ (if includeGF then step.group_by else [])
      let ordered := (contextCols.foldl
        (fun (acc : List String) c =>
          if acc.contains c || !final0.cols.contains c then acc else acc ++ [c]) [])
      let dataCols := final0.cols.filter (fun c => !ordered.contains c)
      final0.selectCols (ordered ++ dataCols)
    else final0

/-- `operations.run` (operations.py): dispatch the operation, prepare
filtered groups, process every (group, target column) pair, then assemble
the final `ReportBlock` payload.  Uncaught exceptions (e.g. the duplicate-
column `TypeError` from `apply_transformations`) propagate to the caller. -/
def operations_run (df : DF) (step : CustomStep) : Except PyError ReportBlock :=
  let op := step.operation
  let multiContext := !step.group_by.isEmpty || decide (1 < step.target_columns.length)
  let includeGF := multiContext && aggOps.contains op
  if !opHandlerNames.contains op then
    .ok ⟨"Error in step: " ++ step.output_name,
         ⟨["Error"], [[Cell.str ("Unknown custom operation: \u0027" ++ op ++ "\u0027")]]⟩⟩
  else
    ((prepare_data_groups df step.filters step.group_by).2).bind (fun gs =>
      (processGroups step multiContext includeGF gs).map (fun frames =>
        if frames.isEmpty then ⟨step.output_name, messageFrame⟩
        else ⟨step.output_name, assembleCustom step multiContext includeGF frames⟩))



theorem processGroups_all_empty (step : CustomStep) (mc igf : Bool) :
    ∀ gs : List (GroupKey × DF), (∀ g ∈ gs, g.2.isEmptyTable = true) →
      processGroups step mc igf gs = .ok [] := by
  intro gs
  induction gs with
  | nil => intro _; rfl
  | cons g rest ih =>
    intro hall
    have hg : g.2.isEmptyTable = true := hall g (by simp)
    simp [processGroups, hg, ih (fun x hx => hall x (by simp [hx]))]

/-- C10 (amended): in `operations.run`, (1) a group whose sub-table is empty
after filtering is silently skipped — removing it from the group list leaves
the processed results unchanged, so it contributes nothing, not even the
`"Column not found"` sentinel for missing target columns; and (2) when no
group contributes any result frame (every group is empty after filtering),
the step's `ReportBlock` contains exactly one `"No data produced for this
analysis"` row.  (As the counterexample shows, a non-empty group can
contribute a zero-row frame; the block then has no rows and no message row,
so the claim's literal "no group contributes any rows" trigger is wrong.) -/
theorem c10_empty_group_skip_and_message :
    (∀ (step : CustomStep) (mc igf : Bool) (pre post : List (GroupKey × DF))
        (k : GroupKey) (e : DF), e.isEmptyTable = true →
        processGroups step mc igf (pre ++ (k, e) :: post)
          = processGroups step mc igf (pre ++ post)) ∧
    (∀ (df : DF) (step : CustomStep) (gs : List (GroupKey × DF)),
        opHandlerNames.contains step.operation = true →
        (prepare_data_groups df step.filters step.group_by).2 = .ok gs →
        (∀ g ∈ gs, g.2.isEmptyTable = true) →
        operations_run df step = .ok ⟨step.output_name, messageFrame⟩) := by
  constructor
  · intro step mc igf pre post k e he
    induction pre with
    | nil => simp [processGroups, he]
    | cons p pre ih => simp only [List.cons_append, processGroups, List.append_eq, ih]
  · intro df step gs hop hprep hemp
    have hpg : ∀ mc igf, processGroups step mc igf gs = Except.ok [] :=
      fun mc igf => processGroups_all_empty step mc igf gs hemp
    have hmem : step.operation ∈ opHandlerNames := by simpa using hop
    simp [operations_run, hop, hmem, hprep, hpg, Except.bind, Except.map]

/-- Witness for the amended C10: an empty group inserted into a singleton
group list is skipped, and a table that filters down to an empty group
yields the single message row. -/
theorem c10_witness :
    ((⟨["c"], []⟩ : DF).isEmptyTable = true ∧
      processGroups { output_name := "avg", target_columns := ["c"], operation := "average" }
        false false [(GroupKey.fullDataset, ⟨["c"], []⟩)]
        = processGroups { output_name := "avg", target_columns := ["c"], operation := "average" }
          false false []) ∧
    operations_run (⟨["c"], []⟩ : DF)
        { output_name := "avg", target_columns := ["c"], operation := "average" }
      = .ok ⟨"avg", messageFrame⟩ :=
  ⟨⟨rfl, c10_empty_group_skip_and_message.1 _ false false [] [] GroupKey.fullDataset _ rfl⟩,
    c10_empty_group_skip_and_message.2 (⟨["c"], []⟩ : DF)
      { output_name := "avg", target_columns := ["c"], operation := "average" }
      [(GroupKey.fullDataset, ⟨["c"], []⟩)] rfl rfl (by decide)⟩

/-- C10 counterexample: a non-empty group can contribute a frame with no
rows (`duplicate_count` with no duplicated value); the resulting block then
has zero rows and no message row, refuting the claim that a block in which
no group contributed any rows always contains exactly the message row. -/
theorem c10_counterexample :
    operations_run ⟨["c"], [(0, [Cell.str "a"]), (1, [Cell.str "b"])]⟩
        { output_name := "dups", target_columns := ["c"], operation := "duplicate_count" }
      = .ok ⟨"dups", ⟨["Duplicates", "Instances"], []⟩⟩ ∧
    (⟨["Duplicates", "Instances"], ([] : List (List Cell))⟩ : RFrame).rows.length = 0 :=
  ⟨rfl, rfl⟩

/-- `schemas.OutlierDetectionAnalysis`. -/
structure OutlierStep where
  output_name : String
  filters : List Filter := []
  group_by : List String := []
  target_columns : List String
  method : String := "iqr"
  threshold : ℚ := 3/2
  deriving DecidableEq

/-- One entry of `outlier_records`: group label, original row index (`none`
models `pd.NA` on sentinel rows), column, reported value (a number for a real
outlier, a sentinel string otherwise) and the upper-cased method name. -/
structure ORecord where
  group : String
  origIndex : Option ℕ
  column : String
  value : Cell
  method : String
  deriving DecidableEq

/-- `pd.to_numeric(series, errors="coerce").dropna()` keeping row labels. -/
def numSeries (s : List (ℕ × Cell)) : List (ℕ × ℚ) :=
  s.filterMap (fun rc =>
    match toNumericCell rc.2 with
    | Cell.num q => some (rc.1, q)
    | _ => none)

/-- The numeric value list of header position `i` of a frame (after coercion
and NaN drop), as the outlier detector sees it. -/
def seriesVals (gdf : DF) (i : ℕ) : List ℚ :=
  (numSeries (colAt gdf i)).map Prod.snd

/-- pandas `Series.quantile(q)` with the default linear interpolation. -/
def quantileQ (l : List ℚ) (q : ℚ) : ℚ :=
  let sorted := insertionSort (fun a b : ℚ => decide (a ≤ b)) l
  let n := sorted.length
  if n = 0 then 0
  else
    let pos : ℚ := q * ((n : ℚ) - 1)
    let lo : ℕ := (Int.floor pos).toNat
    let frac : ℚ := pos - Int.floor pos
    sorted.getD lo 0 + frac * (sorted.getD (lo + 1) (sorted.getD lo 0) - sorted.getD lo 0)

/-- `series.mean()`. -/
def meanQ (l : List ℚ) : ℚ := l.sum / l.length

/-- `series.std()` squared: the sample variance (`ddof=1`). -/
def varQ (l : List ℚ) : ℚ :=
  ((l.map (fun v => (v - meanQ l) ^ 2)).sum) / ((l.length : ℚ) - 1)

/-- `Q1 - threshold * IQR` (outlier_detection.py, iqr branch). -/
def iqrLowerB (vals : List ℚ) (k : ℚ) : ℚ :=
  quantileQ vals (1/4) - k * (quantileQ vals (3/4) - quantileQ vals (1/4))

/-- `Q3 + threshold * IQR` (outlier_detection.py, iqr branch). -/
def iqrUpperB (vals : List ℚ) (k : ℚ) : ℚ :=
  quantileQ vals (3/4) + k * (quantileQ vals (3/4) - quantileQ vals (1/4))

/-- The selection `(series < lower_bound) | (series > upper_bound)` for one
value.  The z-score branch compares against `mean ± k·std` with `std` the
irrational square root of the sample variance; since `k > 0` (schema) and
both sides are non-negative, `|v - mean| > k·std` is encoded by its exact
square `(v - mean)² > k²·var`.  With fewer than two values `std` is NaN and
every comparison with it is false.  A method outside the two branches leaves
the infinite initial bounds, selecting nothing. -/
def outlierFlag (method : String) (k : ℚ) (vals : List ℚ) (v : ℚ) : Bool :=
  if method = "iqr" then
    decide (v < iqrLowerB vals k) || decide (iqrUpperB vals k < v)
  else if method = "z-score" then
    if vals.length ≤ 1 then false
    else decide ((v - meanQ vals) ^ 2 > k ^ 2 * varQ vals)
  else false

/-- The per-column body of `outlier_detection.run`: the `"Column not found"`
sentinel, the `"No numeric data for analysis"` sentinel, the `"No outliers
detected"` sentinel, or one record per selected outlier with its original row
index.  A duplicated column name makes `pd.to_numeric` receive a DataFrame
and raise. -/
def outlierColRecords (gname method : String) (k : ℚ) (gdf : DF) (col : String) :
    Except PyError (List ORecord) :=
  match colPositions gdf col with
  | [] => .ok [⟨gname, none, col, Cell.str "Column not found", method.toUpper⟩]
  | [i] =>
    if (numSeries (colAt gdf i)).isEmpty then
      .ok [⟨gname, none, col, Cell.str "No numeric data for analysis", method.toUpper⟩]
    else
      if ((numSeries (colAt gdf i)).filter
          (fun iv => outlierFlag method k (seriesVals gdf i) iv.2)).isEmpty then
        .ok [⟨gname, none, col, Cell.str "No outliers detected", method.toUpper⟩]
      else
        .ok (((numSeries (colAt gdf i)).filter
            (fun iv => outlierFlag method k (seriesVals gdf i) iv.2)).map
          (fun iv => ⟨gname, some iv.1, col, Cell.num iv.2, method.toUpper⟩))
  | _ => .error (.typeError "to_numeric called on a DataFrame")

/-- The group loop of `outlier_detection.run` skips empty groups; because the
function's `return` sits inside the loop body, only the first non-empty group
is ever reached. -/
def firstNonEmptyGroup : List (GroupKey × DF) → Option (GroupKey × DF)
  | [] => none
  | g :: rest => if g.2.isEmptyTable then firstNonEmptyGroup rest else some g

/-- The layout tail of `outlier_detection.run`: drop the Group column, group
records by Column (first-occurrence order), emit one header row per column
followed by its detail rows. -/
def outlierPretty (records : List ORecord) : RFrame :=
  if records.isEmpty then
    ⟨["Column", "Original Row Index", "Outlier Value", "Method"], []⟩
  else
    let cols := records.foldl
      (fun (acc : List String) r =>
        if acc.contains r.column then acc else acc ++ [r.column]) []
    ⟨["Column", "Original Row Index", "Outlier Value", "Method"],
      cols.flatMap (fun cn =>
        [[Cell.str cn, Cell.na, Cell.na, Cell.str ""]] ++
        (records.filter (fun r => r.column = cn)).map (fun r =>
          [Cell.str "",
           (match r.origIndex with | some j => Cell.num j | none => Cell.na),
           r.value, Cell.str r.method]))⟩

/-- `outlier_detection.run` (outlier_detection.py).  The source's `return` is
indented inside the group loop: the first non-empty group's records are
assembled and returned immediately, later groups are never processed, and
when every group is empty the function falls off the loop and returns `None`
(modelled by `Option.none`) despite its `-> ReportBlock` annotation. -/
def outlier_run (df : DF) (step : OutlierStep) : Except PyError (Option ReportBlock) :=
  ((prepare_data_groups df step.filters step.group_by).2).bind (fun gs =>
    match firstNonEmptyGroup gs with
    | none => .ok none
    | some g =>
      (step.target_columns.mapM
        (outlierColRecords (format_group_name g.1) step.method step.threshold g.2)).map
        (fun recs => some ⟨step.output_name, outlierPretty recs.flatten⟩))

/-- The 10-row grouped fixture of the repo's own outlier tests. -/
def c3df : DF :=
  ⟨["group", "sales"],
   [(0, [Cell.str "A", Cell.num (-3000)]),
    (1, [Cell.str "A", Cell.num 10]),
    (2, [Cell.str "A", Cell.num 12]),
    (3, [Cell.str "A", Cell.num 15]),
    (4, [Cell.str "A", Cell.num 11]),
    (5, [Cell.str "B", Cell.num 100]),
    (6, [Cell.str "B", Cell.num 110]),
    (7, [Cell.str "B", Cell.num 500]),
    (8, [Cell.str "B", Cell.num 105]),
    (9, [Cell.str "B", Cell.num 5000])]⟩

def c3step : OutlierStep :=
  { output_name := "OD Test", group_by := ["group"], target_columns := ["sales"] }

/-- C3 evidence: on the repo's own grouped fixture (`test_outlier_with_
grouping` expects one outlier in each of groups A and B and a `Group`
column), the misindented `return` inside the group loop makes the run emit
only group A's rows — group B's pair (its outlier 5000 included) is omitted
entirely — and on an all-empty input the function returns `None` instead of
a `ReportBlock` (its own annotation and `test_outlier_empty_input_df`
promise a block). -/
theorem c3_outlier_early_return_evidence :
    outlier_run c3df c3step
      = .ok (some ⟨"OD Test",
          ⟨["Column", "Original Row Index", "Outlier Value", "Method"],
           [[Cell.str "sales", Cell.na, Cell.na, Cell.str ""],
            [Cell.str "", Cell.num 0, Cell.num (-3000), Cell.str "IQR"]]⟩⟩) ∧
    ([[Cell.str "sales", Cell.na, Cell.na, Cell.str ""],
      [Cell.str "", Cell.num 0, Cell.num (-3000), Cell.str "IQR"]].all
        (fun row => !row.contains (Cell.num 5000))) = true ∧
    outlier_run ⟨["group", "sales"], []⟩ c3step = .ok none := by
  refine ⟨by with_unfolding_all rfl, rfl, by with_unfolding_all rfl⟩

theorem outlierColRecords_num_mem (gname method : String) (k : ℚ) (gdf : DF)
    (col : String) (i : ℕ) (hcol : colPositions gdf col = [i])
    (recs : List ORecord) (hrun : outlierColRecords gname method k gdf col = .ok recs)
    (r : ORecord) (hr : r ∈ recs) (v : ℚ) (hv : r.value = Cell.num v) :
    v ∈ seriesVals gdf i ∧ outlierFlag method k (seriesVals gdf i) v = true := by
  unfold outlierColRecords at hrun
  rw [hcol] at hrun
  replace hrun :
      (if (numSeries (colAt gdf i)).isEmpty then
        (Except.ok [⟨gname, none, col, Cell.str "No numeric data for analysis",
          method.toUpper⟩] : Except PyError (List ORecord))
      else
        if ((numSeries (colAt gdf i)).filter
            (fun iv => outlierFlag method k (seriesVals gdf i) iv.2)).isEmpty then
          .ok [⟨gname, none, col, Cell.str "No outliers detected", method.toUpper⟩]
        else
          .ok (((numSeries (colAt gdf i)).filter
              (fun iv => outlierFlag method k (seriesVals gdf i) iv.2)).map
            (fun iv => ⟨gname, some iv.1, col, Cell.num iv.2, method.toUpper⟩)))
        = .ok recs := hrun
  by_cases hemp : (numSeries (colAt gdf i)).isEmpty = true
  · rw [if_pos hemp] at hrun
    have hx := Except.ok.inj hrun
    subst hx
    obtain rfl := List.mem_singleton.mp hr
    simp at hv
  · rw [if_neg hemp] at hrun
    by_cases hout : ((numSeries (colAt gdf i)).filter
        (fun iv => outlierFlag method k (seriesVals gdf i) iv.2)).isEmpty = true
    · rw [if_pos hout] at hrun
      have hx := Except.ok.inj hrun
      subst hx
      obtain rfl := List.mem_singleton.mp hr
      simp at hv
    · rw [if_neg hout] at hrun
      have hx := Except.ok.inj hrun
      subst hx
      obtain ⟨iv, hiv, hmk⟩ := List.mem_map.mp hr
      have hval : Cell.num iv.2 = Cell.num v := by rw [← hv, ← hmk]
      obtain rfl : iv.2 = v := by simpa using hval
      obtain ⟨hser, hflag⟩ := List.mem_filter.mp hiv
      constructor
      · exact List.mem_map.mpr ⟨iv, hser, rfl⟩
      · simpa using hflag

/-- C7: every reported outlier value lies strictly outside the computed
interval for its group and column — for the iqr method strictly outside
`[Q1 − k·IQR, Q3 + k·IQR]`, and for the z-score method strictly outside
`[mean − k·std, mean + k·std]`, stated by the exact square
`(v − mean)² > k²·var` (with at least two values, since `std` is NaN
otherwise and nothing is selected); consequently no value inside or on the
bounds is ever reported. -/
theorem c7_reported_values_strictly_outside :
    (∀ (gname : String) (k : ℚ) (gdf : DF) (col : String) (i : ℕ)
        (recs : List ORecord) (r : ORecord) (v : ℚ),
        colPositions gdf col = [i] →
        outlierColRecords gname "iqr" k gdf col = .ok recs →
        r ∈ recs → r.value = Cell.num v →
        v ∈ seriesVals gdf i ∧
          (v < iqrLowerB (seriesVals gdf i) k ∨ iqrUpperB (seriesVals gdf i) k < v)) ∧
    (∀ (gname : String) (k : ℚ) (gdf : DF) (col : String) (i : ℕ)
        (recs : List ORecord) (r : ORecord) (v : ℚ),
        colPositions gdf col = [i] →
        outlierColRecords gname "z-score" k gdf col = .ok recs →
        r ∈ recs → r.value = Cell.num v →
        v ∈ seriesVals gdf i ∧ 2 ≤ (seriesVals gdf i).length ∧
          (v - meanQ (seriesVals gdf i)) ^ 2 > k ^ 2 * varQ (seriesVals gdf i)) := by
  constructor
  · intro gname k gdf col i recs r v hcol hrun hr hv
    obtain ⟨hmem, hflag⟩ :=
      outlierColRecords_num_mem gname "iqr" k gdf col i hcol recs hrun r hr v hv
    refine ⟨hmem, ?_⟩
    simpa [outlierFlag] using hflag
  · intro gname k gdf col i recs r v hcol hrun hr hv
    obtain ⟨hmem, hflag⟩ :=
      outlierColRecords_num_mem gname "z-score" k gdf col i hcol recs hrun r hr v hv
    refine ⟨hmem, ?_⟩
    rw [outlierFlag] at hflag
    simp only [if_neg (by decide : ¬ ("z-score" = "iqr")), if_pos rfl] at hflag
    by_cases hlen : (seriesVals gdf i).length ≤ 1
    · rw [if_pos hlen] at hflag; simp at hflag
    · rw [if_neg hlen] at hflag
      exact ⟨by omega, by simpa using hflag⟩

def c7df : DF :=
  ⟨["x"], [(0, [Cell.num 1]), (1, [Cell.num 2]), (2, [Cell.num 3]), (3, [Cell.num 100])]⟩

/-- Witness for C7 at a concrete iqr run: the single reported value `100`
is a series member strictly outside the computed bounds. -/
theorem c7_witness :
    colPositions c7df "x" = [0] ∧
    outlierColRecords "Full Dataset" "iqr" (3/2) c7df "x"
      = .ok [⟨"Full Dataset", some 3, "x", Cell.num 100, "IQR"⟩] ∧
    ((100 : ℚ) ∈ seriesVals c7df 0 ∧
      ((100 : ℚ) < iqrLowerB (seriesVals c7df 0) (3/2) ∨
        iqrUpperB (seriesVals c7df 0) (3/2) < 100)) :=
  ⟨rfl, by with_unfolding_all rfl,
    c7_reported_values_strictly_outside.1 "Full Dataset" (3/2) c7df "x" 0
      [⟨"Full Dataset", some 3, "x", Cell.num 100, "IQR"⟩]
      ⟨"Full Dataset", some 3, "x", Cell.num 100, "IQR"⟩ 100
      rfl (by with_unfolding_all rfl) (by simp) rfl⟩

/-- `schemas.CorrelationAnalysis`. -/
structure CorrStep where
  output_name : String
  filters : List Filter := []
  group_by : List String := []
  columns : List String
  threshold : ℚ := 1/5
  deriving DecidableEq

/-- A correlation value as the code computes it, carried symbolically:
`⟨nonneg, sq⟩` stands for the real number `±√sq` (sign by `nonneg`).  Pearson,
Cramér's V and the correlation ratio all end in a square root, which is
irrational in general; the sign and the exact square determine the value. -/
structure CVal where
  nonneg : Bool
  sq : ℚ
  deriving DecidableEq

/-- `|corr| ≥ threshold`, decided exactly on the squared magnitude: since
`|corr| = √sq ≥ 0`, the comparison holds iff the threshold is non-positive
or its square is at most `sq`. -/
def absGeSq (sq t : ℚ) : Bool := decide (t ≤ 0) || decide (t ^ 2 ≤ sq)

/-- One record of `correlation_records` (correlation.py). -/
structure CorrRecord where
  group : String
  col1 : String
  col2 : String
  corrType : String
  value : CVal
  deriving DecidableEq

/-- `itertools.combinations(columns, 2)`. -/
def combos2 : List String → List (String × String)
  | [] => []
  | x :: xs => xs.map (fun y => (x, y)) ++ combos2 xs

/-- `series.dropna()` keeping row labels. -/
def dropNaIdx (s : List (ℕ × Cell)) : List (ℕ × Cell) :=
  s.filter (fun rc => rc.2 ≠ Cell.na)

/-- `col1.align(col2, join="inner")`: the value pairs at the common row
labels. -/
def alignInner (s1 s2 : List (ℕ × Cell)) : List (Cell × Cell) :=
  s1.filterMap (fun rc => (s2.find? (fun rc2 => rc2.1 = rc.1)).map (fun rc2 => (rc.2, rc2.2)))

/-- `is_categorical` (helpers.py): `pd.api.types.is_string_dtype` — a series
holding any string value has object/string dtype; an all-numeric (or empty)
series does not. -/
def is_categorical (cells : List Cell) : Bool := cells.any isStrCell

/-- The numeric content of a cell known to be non-missing and non-string
(the Pearson branch only sees such cells). -/
def cellToQ : Cell → ℚ
  | Cell.num q => q
  | _ => 0

/-- First-occurrence distinct values. -/
def distinctCells (l : List Cell) : List Cell :=
  l.foldl (fun acc c => if acc.contains c then acc else acc ++ [c]) []

/-- `aligned_col1.corr(aligned_col2)`: Pearson's r, as sign and square
(`r² = cov²/(varx·vary)`, the `n−1` factors cancelling); NaN (`none`) with
fewer than two points or a zero variance. -/
def pearsonVal (xs ys : List ℚ) : Option CVal :=
  if xs.length < 2 then none
  else
    let mx := meanQ xs
    let my := meanQ ys
    let cov := ((xs.zip ys).map (fun p => (p.1 - mx) * (p.2 - my))).sum
    let vx := (xs.map (fun v => (v - mx) ^ 2)).sum
    let vy := (ys.map (fun v => (v - my) ^ 2)).sum
    if vx = 0 ∨ vy = 0 then none
    else some ⟨decide (0 ≤ cov), cov ^ 2 / (vx * vy)⟩

/-- `cramers_v` (helpers.py): `√(φ²/min(k−1, r−1))` with `φ² = χ²/n` from the
uncorrected chi-square of the contingency table; `0` on an empty table (the
source's `n == 0` guard) and NaN (`none`) when a variable has a single
category (`χ² = 0` and the divisor is `0`, giving `0/0`). -/
def cramersVal (pairs : List (Cell × Cell)) : Option CVal :=
  let xs := distinctCells (pairs.map Prod.fst)
  let ys := distinctCells (pairs.map Prod.snd)
  if pairs.length = 0 then some ⟨true, 0⟩
  else
    let d : ℕ := min (ys.length - 1) (xs.length - 1)
    if d = 0 then none
    else
      let n : ℚ := pairs.length
      let chi2 := (xs.map (fun x => (ys.map (fun y =>
        let o : ℚ := (pairs.filter (fun p => p.1 = x ∧ p.2 = y)).length
        let e : ℚ := ((pairs.filter (fun p => p.1 = x)).length : ℚ)
          * ((pairs.filter (fun p => p.2 = y)).length : ℚ) / n
        (o - e) ^ 2 / e)).sum)).sum
      some ⟨true, (chi2 / n) / (d : ℚ)⟩

/-- `correlation_ratio` (correlation.py): build `{cat, to_numeric(val)}`,
drop incomplete rows, and return `√(ss_between/ss_total)`; NaN (`none`) when
nothing remains or the total sum of squares is not positive. -/
def etaVal (cats : List Cell) (vals : List Cell) : Option CVal :=
  let pairsDf := (cats.zip vals).filterMap (fun p =>
    if p.1 = Cell.na then none
    else
      match toNumericCell p.2 with
      | Cell.num q => some (p.1, q)
      | _ => none)
  if pairsDf.isEmpty then none
  else
    let vs := pairsDf.map Prod.snd
    let m := meanQ vs
    let cs := distinctCells (pairsDf.map Prod.fst)
    let ssb := (cs.map (fun c =>
      let g := (pairsDf.filter (fun p => p.1 = c)).map Prod.snd
      (g.length : ℚ) * (meanQ g - m) ^ 2)).sum
    let sst := (vs.map (fun v => (v - m) ^ 2)).sum
    if sst ≤ 0 then none
    else some ⟨true, ssb / sst⟩

/-- The pair-classification chain of `correlation.run` (lines 65-102): both
numeric → Pearson, both categorical → Cramér's V, mixed → correlation ratio
(eta) on (categorical, numeric); the final `continue` arm is unreachable.
A pair is recorded only when the value is not NaN and `|value| ≥ threshold`. -/
def recordOfPair (thr : ℚ) (gname : String) (p : String × String)
    (aligned : List (Cell × Cell)) : Option CorrRecord :=
  let a1 := aligned.map Prod.fst
  let a2 := aligned.map Prod.snd
  let scored : Option (String × Option CVal) :=
    if !(is_categorical a1) && !(is_categorical a2) then
      some ("Pearson", pearsonVal (a1.map cellToQ) (a2.map cellToQ))
    else if is_categorical a1 && is_categorical a2 then
      some ("Cram\u00e9r\u0027s V", cramersVal aligned)
    else if is_categorical a1 && !(is_categorical a2) then
      some ("Correlation ratio (eta)", etaVal a1 a2)
    else if is_categorical a2 && !(is_categorical a1) then
      some ("Correlation ratio (eta)", etaVal a2 a1)
    else none
  match scored with
  | none => none
  | some (_, none) => none
  | some (ty, some cv) =>
    if absGeSq cv.sq thr then some ⟨gname, p.1, p.2, ty, cv⟩ else none

/-- One column pair of one group in `correlation.run`: skipped when either
column is absent or the aligned overlap is empty. -/
def processPair (thr : ℚ) (gname : String) (gdf : DF) (p : String × String) :
    Except PyError (Option CorrRecord) :=
  if !(gdf.header.contains p.1 && gdf.header.contains p.2) then .ok none
  else
    match colPositions gdf p.1, colPositions gdf p.2 with
    | [i], [j] =>
      if (alignInner (dropNaIdx (colAt gdf i)) (dropNaIdx (colAt gdf j))).isEmpty then .ok none
      else
        .ok (recordOfPair thr gname p
          (alignInner (dropNaIdx (colAt gdf i)) (dropNaIdx (colAt gdf j))))
    | _, _ => .error (.typeError "correlation column lookup was ambiguous")

/-- Symbolic rendering of a correlation value into a result cell (`±√sq`);
the true float is irrational in general, and no claim reads this cell. -/
def cvalCell (v : CVal) : Cell :=
  Cell.str ((if v.nonneg then "" else "-") ++ "sqrt(" ++ toString v.sq.num
    ++ "/" ++ toString v.sq.den ++ ")")

/-- `correlation.run` (correlation.py): per non-empty group, score every
unordered column pair, keep the records passing the threshold, and emit one
block (with the fixed five-column header when no record survives). -/
def correlation_run (df : DF) (step : CorrStep) : Except PyError ReportBlock :=
  ((prepare_data_groups df step.filters step.group_by).2).bind (fun gs =>
    ((gs.filter (fun g => !g.2.isEmptyTable)).mapM
      (fun g => ((combos2 step.columns).mapM
          (processPair step.threshold (format_group_name g.1) g.2)).map
        (fun recs => recs.filterMap id))).map
      (fun recss =>
        let records := recss.flatten
        ⟨step.output_name,
          ⟨["Group", "Column 1", "Column 2", "Correlation Type", "Correlation Value"],
            records.map (fun r =>
              [Cell.str r.group, Cell.str r.col1, Cell.str r.col2,
               Cell.str r.corrType, cvalCell r.value])⟩⟩))

/-- C5 (amended): a pair in which exactly one column is categorical
(string-dtype) IS scored — `correlation.run` routes it to the correlation
ratio (eta) over the (categorical, numeric) orientation and keeps the row
exactly when eta is defined and `|eta| ≥ threshold`; mixed pairs are not
excluded from the table. -/
theorem c5_mixed_pairs_scored_via_eta (thr : ℚ) (gname : String)
    (p : String × String) (aligned : List (Cell × Cell))
    (hmix : is_categorical (aligned.map Prod.fst)
          ≠ is_categorical (aligned.map Prod.snd)) :
    recordOfPair thr gname p aligned
      = match (if is_categorical (aligned.map Prod.fst)
               then etaVal (aligned.map Prod.fst) (aligned.map Prod.snd)
               else etaVal (aligned.map Prod.snd) (aligned.map Prod.fst)) with
        | none => none
        | some cv =>
          if absGeSq cv.sq thr then
            some ⟨gname, p.1, p.2, "Correlation ratio (eta)", cv⟩
          else none := by
  cases hb1 : is_categorical (aligned.map Prod.fst) <;>
    cases hb2 : is_categorical (aligned.map Prod.snd)
  · exact absurd (hb1.trans hb2.symm) hmix
  · rw [if_neg (by simp [hb1])]
    simp only [recordOfPair, hb1, hb2]
    cases etaVal (aligned.map Prod.snd) (aligned.map Prod.fst) <;> simp
  · rw [if_pos (by simp [hb1])]
    simp only [recordOfPair, hb1, hb2]
    cases etaVal (aligned.map Prod.fst) (aligned.map Prod.snd) <;> simp
  · exact absurd (hb1.trans hb2.symm) hmix

/-- Witness for the amended C5 at a concrete mixed pair. -/
theorem c5_witness :
    (is_categorical ([(Cell.str "a", Cell.num 1), (Cell.str "a", Cell.num 1),
        (Cell.str "b", Cell.num 5), (Cell.str "b", Cell.num 5)].map Prod.fst)
      ≠ is_categorical ([(Cell.str "a", Cell.num 1), (Cell.str "a", Cell.num 1),
        (Cell.str "b", Cell.num 5), (Cell.str "b", Cell.num 5)].map Prod.snd)) ∧
    recordOfPair (1/2) "Full Dataset" ("product", "sales")
        [(Cell.str "a", Cell.num 1), (Cell.str "a", Cell.num 1),
         (Cell.str "b", Cell.num 5), (Cell.str "b", Cell.num 5)]
      = match (if is_categorical ([(Cell.str "a", Cell.num 1), (Cell.str "a", Cell.num 1),
            (Cell.str "b", Cell.num 5), (Cell.str "b", Cell.num 5)].map Prod.fst)
          then etaVal ([(Cell.str "a", Cell.num 1), (Cell.str "a", Cell.num 1),
            (Cell.str "b", Cell.num 5), (Cell.str "b", Cell.num 5)].map Prod.fst)
            ([(Cell.str "a", Cell.num 1), (Cell.str "a", Cell.num 1),
              (Cell.str "b", Cell.num 5), (Cell.str "b", Cell.num 5)].map Prod.snd)
          else etaVal ([(Cell.str "a", Cell.num 1), (Cell.str "a", Cell.num 1),
            (Cell.str "b", Cell.num 5), (Cell.str "b", Cell.num 5)].map Prod.snd)
            ([(Cell.str "a", Cell.num 1), (Cell.str "a", Cell.num 1),
              (Cell.str "b", Cell.num 5), (Cell.str "b", Cell.num 5)].map Prod.fst)) with
        | none => none
        | some cv =>
          if absGeSq cv.sq (1/2) then
            some ⟨"Full Dataset", "product", "sales", "Correlation ratio (eta)", cv⟩
          else none :=
  ⟨by decide,
    c5_mixed_pairs_scored_via_eta (1/2) "Full Dataset" ("product", "sales")
      [(Cell.str "a", Cell.num 1), (Cell.str "a", Cell.num 1),
       (Cell.str "b", Cell.num 5), (Cell.str "b", Cell.num 5)] (by decide)⟩

def c5df : DF :=
  ⟨["product", "sales"],
   [(0, [Cell.str "a", Cell.num 1]), (1, [Cell.str "a", Cell.num 1]),
    (2, [Cell.str "b", Cell.num 5]), (3, [Cell.str "b", Cell.num 5])]⟩

def c5step : CorrStep :=
  { output_name := "corr", columns := ["sales", "product"], threshold := 1/2 }

/-- C5 counterexample: at a concrete table, the mixed numeric/categorical
pair (sales, product) produces exactly one row in the correlation result
table, typed `Correlation ratio (eta)` — the claim says such a pair produces
no row. -/
theorem c5_counterexample :
    correlation_run c5df c5step
      = .ok ⟨"corr",
          ⟨["Group", "Column 1", "Column 2", "Correlation Type", "Correlation Value"],
           [[Cell.str "Full Dataset", Cell.str "sales", Cell.str "product",
             Cell.str "Correlation ratio (eta)", cvalCell ⟨true, 1⟩]]⟩⟩ ∧
    ([[Cell.str "Full Dataset", Cell.str "sales", Cell.str "product",
       Cell.str "Correlation ratio (eta)", cvalCell ⟨true, 1⟩]] : List (List Cell)).length ≠ 0 := by
  refine ⟨by with_unfolding_all rfl, by decide⟩

/-- One row of the fitted coefficient table `results_summary.tables[1]`
(key_driver.py): feature name, coefficient, standard error and p-value
(`none` models a NaN p-value, e.g. from a perfect fit).  The OLS fit itself
is numeric-library code (statsmodels) outside the embedding; the retention
logic of `key_driver.run` (lines 80-123) is embedded over an arbitrary
fitted table. -/
structure CoefRow where
  name : String
  coef : ℚ
  stderr : ℚ
  pvalue : Option ℚ
  deriving DecidableEq

/-- The row mask of `key_driver.run`: `P>|t| < p_value_threshold` (false on a
NaN p-value), forced true on the `const` row when the intercept is enabled
(`mask.loc["const"] = True` runs exactly when `include_intercept` holds and a
`const` row exists, which per-row is equivalent to this formula). -/
def keepRow (includeIntercept : Bool) (t : ℚ) (r : CoefRow) : Bool :=
  (match r.pvalue with
   | some p => decide (p < t)
   | none => false) || (includeIntercept && r.name == "const")

def pvalueCell : Option ℚ → Cell
  | some p => Cell.num (round2 p)
  | none => Cell.na

/-- One group's result frame in `key_driver.run`: the retained coefficient
rows (rounded to 2 decimals, Group label attached) followed by the synthetic
`R-squared` row. -/
def key_driver_group_frame (ii : Bool) (t : ℚ) (rows : List CoefRow)
    (rsq : ℚ) (gname : String) : RFrame :=
  ⟨["Feature", "Coefficient", "Standard Error", "P-value", "Group"],
    (rows.filter (keepRow ii t)).map (fun r =>
      [Cell.str r.name, Cell.num (round2 r.coef), Cell.num (round2 r.stderr),
       pvalueCell r.pvalue, Cell.str gname])
    ++ [[Cell.str "R-squared", Cell.num (round2 rsq), Cell.na, Cell.na, Cell.str gname]]⟩

theorem keepRow_monotone (ii : Bool) (t1 t2 : ℚ) (hle : t1 ≤ t2) (r : CoefRow)
    (h : keepRow ii t1 r = true) : keepRow ii t2 r = true := by
  unfold keepRow at h ⊢
  cases hp : r.pvalue with
  | none => rw [hp] at h; simpa using h
  | some p =>
    rw [hp] at h
    simp only [Bool.or_eq_true, decide_eq_true_eq] at h ⊢
    rcases h with h | h
    · exact Or.inl (lt_of_lt_of_le h hle)
    · exact Or.inr h

/-- C8 (amended): in `key_driver.run`, (1) with `p_value_threshold = 1.0` a
fitted row is retained iff its p-value is strictly below 1 or it is the
`const` row under `include_intercept` — a row whose p-value is exactly 1.0
(or NaN) is dropped even at threshold 1.0, so "every fitted feature" is too
strong; (2) the `R-squared` row is always appended; (3) the retained row set
is monotone: lowering the threshold can only shrink it. -/
theorem c8_retention_at_one_and_monotone :
    (∀ (ii : Bool) (r : CoefRow),
      keepRow ii 1 r = true ↔
        ((∃ p, r.pvalue = some p ∧ p < 1) ∨ (ii = true ∧ r.name = "const"))) ∧
    (∀ (ii : Bool) (t : ℚ) (rows : List CoefRow) (rsq : ℚ) (gname : String),
      (key_driver_group_frame ii t rows rsq gname).rows.getLast?
        = some [Cell.str "R-squared", Cell.num (round2 rsq), Cell.na, Cell.na,
            Cell.str gname]) ∧
    (∀ (ii : Bool) (t1 t2 : ℚ), t1 ≤ t2 → ∀ rows : List CoefRow,
      (rows.filter (keepRow ii t1)).Sublist (rows.filter (keepRow ii t2))) := by
  refine ⟨?_, ?_, ?_⟩
  · intro ii r
    unfold keepRow
    cases hp : r.pvalue with
    | none => simp
    | some p => simp
  · intro ii t rows rsq gname
    unfold key_driver_group_frame
    exact List.getLast?_concat _
  · intro ii t1 t2 hle rows
    induction rows with
    | nil => simp
    | cons r rest ih =>
      by_cases h1 : keepRow ii t1 r = true
      · rw [List.filter_cons_of_pos h1,
            List.filter_cons_of_pos (keepRow_monotone ii t1 t2 hle r h1)]
        exact ih.cons₂ r
      · rw [List.filter_cons_of_neg h1]
        by_cases h2 : keepRow ii t2 r = true
        · rw [List.filter_cons_of_pos h2]
          exact ih.cons r
        · rw [List.filter_cons_of_neg h2]
          exact ih

/-- Witness for the amended C8 at concrete rows and thresholds. -/
theorem c8_witness :
    (keepRow true 1 ⟨"y", 2, 1, some 0⟩ = true ↔
      ((∃ p, (⟨"y", 2, 1, some 0⟩ : CoefRow).pvalue = some p ∧ p < 1) ∨
        (true = true ∧ "y" = "const"))) ∧
    ((key_driver_group_frame true 1 [⟨"y", 2, 1, some 0⟩] 1 "g").rows.getLast?
      = some [Cell.str "R-squared", Cell.num (round2 1), Cell.na, Cell.na, Cell.str "g"]) ∧
    ((0 : ℚ) ≤ 1 ∧
      (([⟨"y", 2, 1, some 0⟩] : List CoefRow).filter (keepRow true 0)).Sublist
        (([⟨"y", 2, 1, some 0⟩] : List CoefRow).filter (keepRow true 1))) :=
  ⟨c8_retention_at_one_and_monotone.1 true ⟨"y", 2, 1, some 0⟩,
    c8_retention_at_one_and_monotone.2.1 true 1 [⟨"y", 2, 1, some 0⟩] 1 "g",
    ⟨by decide, c8_retention_at_one_and_monotone.2.2 true 0 1 (by decide)
      [⟨"y", 2, 1, some 0⟩]⟩⟩

/-- C8 counterexample: a fitted feature whose p-value is exactly 1.0 is
dropped even with `p_value_threshold = 1.0` (the mask is a strict `<`), so
the block keeps only the `R-squared` row — the claim says every fitted
feature's coefficient row is retained at threshold 1.0. -/
theorem c8_counterexample :
    ([⟨"x", 5, 1, some 1⟩] : List CoefRow).filter (keepRow false 1) = [] ∧
    (key_driver_group_frame false 1 [⟨"x", 5, 1, some 1⟩] 1 "Full Dataset").rows
      = [[Cell.str "R-squared", Cell.num (round2 1), Cell.na, Cell.na,
          Cell.str "Full Dataset"]] := by
  refine ⟨by decide, by with_unfolding_all rfl⟩

/-- `schemas.ColumnTransformation`. -/
structure ColumnTransformation where
  column_name : String
  transformations : List Transformation
  deriving DecidableEq

/-- `schemas.CrosstabAnalysis`. -/
structure CrosstabStep where
  output_name : String
  filters : List Filter := []
  group_by : List String := []
  index_column : String
  column_to_compare : String
  column_transformations : List ColumnTransformation := []
  show_percentages : String := "none"
  deriving DecidableEq

def ALLOWED_TRANSFORMATIONS : List String := ["split_and_explode", "strip_whitespace"]

/-- The first disallowed action in one column's transformation list. -/
def firstDisallowed (ts : List Transformation) : Option String :=
  (ts.find? (fun t => !(ALLOWED_TRANSFORMATIONS.contains t.action))).map (fun t => t.action)

/-- The validation loop at the top of `crosstab.run` (lines 15-21): a
disallowed action raises `ValueError` before anything else runs. -/
def crosstabValidate : List ColumnTransformation → Except PyError Unit
  | [] => .ok ()
  | ct :: rest =>
    match firstDisallowed ct.transformations with
    | some a => .error (.valueError
        ("Transformation \u0027" ++ a ++ "\u0027 is not supported by Crosstab Analysis."))
    | none => crosstabValidate rest

/-- `group_df[[index_column, column_to_compare]]` (first matching position per
name, KeyError when a name is absent), as labelled value pairs. -/
def selectTwo (gdf : DF) (c1 c2 : String) : Except PyError (List (ℕ × (Cell × Cell))) :=
  match colPositions gdf c1, colPositions gdf c2 with
  | i :: _, j :: _ =>
    .ok (gdf.rows.map (fun r => (r.1, (r.2.getD i Cell.na, r.2.getD j Cell.na))))
  | _, _ => .error (.keyError "column not found")

/-- `working_df[col] = transformed_series`: the assignment reindexes the
series onto the frame's index and raises when `split_and_explode` duplicated
labels (length change). -/
def assignBack (orig transformed : List (ℕ × Cell)) : Except PyError (List (ℕ × Cell)) :=
  if transformed.length = orig.length then .ok transformed
  else .error (.valueError "cannot reindex from a duplicate axis")

/-- The contingency table of one group with margins and the configured
percentage normalisation, `Group` label appended (crosstab.py lines 49-66).
Row and column categories are sorted, the `All` margins appended last. -/
def crosstabGroupFrame (indexName mode gname : String)
    (pairs : List (Cell × Cell)) : RFrame :=
  let xs := insertionSort cellLeB (distinctCells (pairs.map Prod.fst))
  let ys := insertionSort cellLeB (distinctCells (pairs.map Prod.snd))
  let cnt : Cell → Cell → ℚ := fun x y =>
    ((pairs.filter (fun p => p.1 = x ∧ p.2 = y)).length : ℚ)
  let rowT : Cell → ℚ := fun x => ((pairs.filter (fun p => p.1 = x)).length : ℚ)
  let colT : Cell → ℚ := fun y => ((pairs.filter (fun p => p.2 = y)).length : ℚ)
  let grand : ℚ := pairs.length
  let dataRow : Cell → List ℚ := fun x =>
    if mode = "index" then (ys.map (fun y => cnt x y / rowT x)) ++ [rowT x / rowT x]
    else if mode = "columns" then (ys.map (fun y => cnt x y / colT y)) ++ [rowT x / grand]
    else if mode = "all" ∧ grand > 0 then (ys.map (fun y => cnt x y / grand)) ++ [rowT x / grand]
    else (ys.map (fun y => cnt x y)) ++ [rowT x]
  let allRow : List ℚ :=
    if mode = "index" then (ys.map (fun y => colT y / grand)) ++ [grand / grand]
    else if mode = "columns" then (ys.map (fun y => colT y / colT y)) ++ [grand / grand]
    else if mode = "all" ∧ grand > 0 then (ys.map (fun y => colT y / grand)) ++ [grand / grand]
    else (ys.map (fun y => colT y)) ++ [grand]
  ⟨[indexName] ++ ys.map cellStr ++ ["All", "Group"],
    (xs.map (fun x => [x] ++ (dataRow x).map Cell.num ++ [Cell.str gname]))
    ++ [[Cell.str "All"] ++ allRow.map Cell.num ++ [Cell.str gname]]⟩

/-- One group of `crosstab.run`: restrict to the two columns, drop incomplete
rows, apply the (already validated) per-column transformations with
assignment-back, drop incomplete rows again and build the contingency frame;
empty groups and empty working frames contribute nothing. -/
def crosstabGroupCompute (step : CrosstabStep) (g : GroupKey × DF) :
    Except PyError (Option RFrame) :=
  if g.2.isEmptyTable then .ok none
  else
    (selectTwo g.2 step.index_column step.column_to_compare).bind (fun rows0 =>
      let kept := rows0.filter (fun r => r.2.1 ≠ Cell.na ∧ r.2.2 ≠ Cell.na)
      let s1 := kept.map (fun r => (r.1, r.2.1))
      let s2 := kept.map (fun r => (r.1, r.2.2))
      (step.column_transformations.foldlM (fun (ss : List (ℕ × Cell) × List (ℕ × Cell)) ct =>
        if ct.column_name = step.index_column then
          (apply_transformations ss.1 ct.transformations []).bind (fun tr =>
            (assignBack ss.1 tr).map (fun a => (a, ss.2)))
        else if ct.column_name = step.column_to_compare then
          (apply_transformations ss.2 ct.transformations []).bind (fun tr =>
            (assignBack ss.2 tr).map (fun a => (ss.1, a)))
        else .ok ss) (s1, s2)).map (fun ss =>
      let pairs := ((ss.1.map Prod.snd).zip (ss.2.map Prod.snd)).filter
        (fun p => p.1 ≠ Cell.na ∧ p.2 ≠ Cell.na)
      if pairs.isEmpty then none
      else some (crosstabGroupFrame step.index_column step.show_percentages
        (format_group_name g.1) pairs)))

/-- `crosstab.run` (crosstab.py): validate the transformation whitelist
first, then prepare groups, compute each group's contingency frame and
concatenate with the `Group` column moved first. -/
def crosstab_run (df : DF) (step : CrosstabStep) : Except PyError ReportBlock :=
  (crosstabValidate step.column_transformations).bind (fun _ =>
    ((prepare_data_groups df step.filters step.group_by).2).bind (fun gs =>
      (gs.mapM (crosstabGroupCompute step)).map (fun opts =>
        let frames := opts.filterMap id
        if frames.isEmpty then ⟨step.output_name, ⟨["Group", "Data"], []⟩⟩
        else
          let final := concatFrames frames
          ⟨step.output_name,
            final.selectCols ("Group" :: final.cols.filter (fun cn => cn ≠ "Group"))⟩)))

/-- The generic error payload of the orchestrator's `except` arm. -/
def unexpectedErrorFrame : RFrame :=
  ⟨["Error"], [[Cell.str "An unexpected error occurred during this analysis step."]]⟩

/-- `run_dynamic_analysis` (orchestrator.py): one yield per step, in order.
The orchestrator duck-types its steps (it reads only `step.type` and
`step.output_name` and passes the step through), so the embedding is
parametric in the step type with those two projections; a handler call
returns the Python value — a `ReportBlock`, or `None` (`Option.none`, which
`outlier_detection.run` can return) — or raises.  An unknown `type` or a
raising handler yields a synthetic error block and iteration continues. -/
def run_dynamic_analysis {σ : Type} (tyOf nameOf : σ → String)
    (handlers : String → Option (DF → σ → Except PyError (Option ReportBlock)))
    (df : DF) (steps : List σ) : List (Option ReportBlock) :=
  steps.map (fun step =>
    match handlers (tyOf step) with
    | some h =>
      match h df step with
      | .ok b => b
      | .error _ => some ⟨"Error in step: " ++ nameOf step, unexpectedErrorFrame⟩
    | none => some ⟨"Error in step: " ++ nameOf step,
        ⟨["Error"], [[Cell.str ("Unknown analysis type: \u0027" ++ tyOf step ++ "\u0027")]]⟩⟩)

/-- C2 evidence: a reachable request — one `outlier_detection` step over a
table whose groups are all empty — makes the orchestrator yield `None` (the
value `outlier_detection.run` falls through to), so the response is not a
sequence of `ReportBlock`s; the repo's own `test_outlier_empty_input_df`
asserts a `ReportBlock` comes back.  For every other path the orchestrator
yields one block per step (see the C4 theorem for the isolation part). -/
theorem c2_orchestrator_yields_none_for_outlier_step :
    run_dynamic_analysis (fun _ : OutlierStep => "outlier_detection")
        (fun s => s.output_name)
        (fun ty => if ty = "outlier_detection" then some outlier_run else none)
        ⟨["sales"], []⟩ [{ output_name := "OD Test", target_columns := ["sales"] }]
      = [none] ∧
    (none : Option ReportBlock).isSome = false :=
  ⟨rfl, rfl⟩

/-- The crosstab handler as the orchestrator's table holds it (a returned
block is a non-`None` Python value). -/
def crosstabHandler : DF → CrosstabStep → Except PyError (Option ReportBlock) :=
  fun df s => (crosstab_run df s).map some

/-- C4 (amended): a disallowed transformation action makes `crosstab.run`
raise `ValueError` before any computation of that step (the same error for
every input table, so before filtering/grouping); but the orchestrator
catches it and converts it into an error `ReportBlock` for that step only —
every other step still yields its own result, so the request as a whole is
not rejected and blocks are produced for all steps. -/
theorem c4_validation_error_isolated_to_step :
    (∀ (df : DF) (step : CrosstabStep) (e : PyError),
      crosstabValidate step.column_transformations = .error e →
      crosstab_run df step = .error e) ∧
    (∀ {σ : Type} (tyOf nameOf : σ → String)
        (H : String → Option (DF → σ → Except PyError (Option ReportBlock)))
        (df : DF) (pre post : List σ) (s : σ)
        (h : DF → σ → Except PyError (Option ReportBlock)) (e : PyError),
      H (tyOf s) = some h → h df s = .error e →
      run_dynamic_analysis tyOf nameOf H df (pre ++ s :: post)
        = run_dynamic_analysis tyOf nameOf H df pre
          ++ (some ⟨"Error in step: " ++ nameOf s, unexpectedErrorFrame⟩
              :: run_dynamic_analysis tyOf nameOf H df post)) := by
  constructor
  · intro df step e hval
    simp [crosstab_run, hval, Except.bind]
  · intro σ tyOf nameOf H df pre post s h e hH herr
    simp [run_dynamic_analysis, List.map_append, hH, herr]

/-- Witness for the amended C4 at a concrete step with a `to_numeric`
transformation. -/
theorem c4_witness :
    (crosstabValidate [⟨"a", [⟨"to_numeric", none, none⟩]⟩]
        = .error (.valueError
          "Transformation \u0027to_numeric\u0027 is not supported by Crosstab Analysis.") ∧
      crosstab_run ⟨["a", "b"], [(0, [Cell.str "x", Cell.str "y"])]⟩
          ⟨"xt", [], [], "a", "b", [⟨"a", [⟨"to_numeric", none, none⟩]⟩], "none"⟩
        = .error (.valueError
          "Transformation \u0027to_numeric\u0027 is not supported by Crosstab Analysis.")) ∧
    ((fun ty => if ty = "crosstab" then some crosstabHandler else none) "crosstab"
        = some crosstabHandler ∧
      crosstabHandler ⟨["a", "b"], [(0, [Cell.str "x", Cell.str "y"])]⟩
          ⟨"xt", [], [], "a", "b", [⟨"a", [⟨"to_numeric", none, none⟩]⟩], "none"⟩
        = .error (.valueError
          "Transformation \u0027to_numeric\u0027 is not supported by Crosstab Analysis.") ∧
      run_dynamic_analysis (fun _ : CrosstabStep => "crosstab") (fun s => s.output_name)
          (fun ty => if ty = "crosstab" then some crosstabHandler else none)
          ⟨["a", "b"], [(0, [Cell.str "x", Cell.str "y"])]⟩
          ([] ++ ⟨"xt", [], [], "a", "b", [⟨"a", [⟨"to_numeric", none, none⟩]⟩], "none"⟩ :: [])
        = run_dynamic_analysis (fun _ : CrosstabStep => "crosstab") (fun s => s.output_name)
            (fun ty => if ty = "crosstab" then some crosstabHandler else none)
            ⟨["a", "b"], [(0, [Cell.str "x", Cell.str "y"])]⟩ []
          ++ (some ⟨"Error in step: xt", unexpectedErrorFrame⟩
              :: run_dynamic_analysis (fun _ : CrosstabStep => "crosstab")
                  (fun s => s.output_name)
                  (fun ty => if ty = "crosstab" then some crosstabHandler else none)
                  ⟨["a", "b"], [(0, [Cell.str "x", Cell.str "y"])]⟩ [])) :=
  ⟨⟨rfl,
    c4_validation_error_isolated_to_step.1
      ⟨["a", "b"], [(0, [Cell.str "x", Cell.str "y"])]⟩
      ⟨"xt", [], [], "a", "b", [⟨"a", [⟨"to_numeric", none, none⟩]⟩], "none"⟩
      (.valueError
        "Transformation \u0027to_numeric\u0027 is not supported by Crosstab Analysis.")
      rfl⟩,
   ⟨rfl, rfl,
    c4_validation_error_isolated_to_step.2
      (fun _ : CrosstabStep => "crosstab") (fun s => s.output_name)
      (fun ty => if ty = "crosstab" then some crosstabHandler else none)
      ⟨["a", "b"], [(0, [Cell.str "x", Cell.str "y"])]⟩ [] []
      ⟨"xt", [], [], "a", "b", [⟨"a", [⟨"to_numeric", none, none⟩]⟩], "none"⟩
      crosstabHandler
      (.valueError
        "Transformation \u0027to_numeric\u0027 is not supported by Crosstab Analysis.")
      rfl rfl⟩⟩

/-- C4 counterexample: a request whose only step is a crosstab step with a
disallowed `to_numeric` transformation still produces a `ReportBlock` (the
step's synthetic error block) — the claim says no block is produced for any
step of such a request. -/
theorem c4_counterexample :
    run_dynamic_analysis (fun _ : CrosstabStep => "crosstab") (fun s => s.output_name)
        (fun ty => if ty = "crosstab" then some crosstabHandler else none)
        ⟨["a", "b"], [(0, [Cell.str "x", Cell.str "y"])]⟩
        [⟨"xt", [], [], "a", "b", [⟨"a", [⟨"to_numeric", none, none⟩]⟩], "none"⟩]
      = [some ⟨"Error in step: xt", unexpectedErrorFrame⟩] ∧
    [some (⟨"Error in step: xt", unexpectedErrorFrame⟩ : ReportBlock)].length ≠ 0 :=
  ⟨rfl, by decide⟩

end ReportHousing
